import Mathlib

/-!
Verification of the OneQ salesman calculation pipeline.

The repository's numeric pipeline (input normalization → DIY cost
calculation → revenue projection → OneQ pricing → consistency validation)
is embedded shallowly: JavaScript numbers are modelled as rationals (ℚ),
`Math.round` as floor of `x + 1/2` (JS rounds half toward +∞), and
`Math.ceil` as the integer ceiling.  Each tool's `execute` body becomes a
total Lean function on an input structure mirroring the tool's zod
`inputSchema`.
-/


/-- JS `Math.round`: rounds half toward positive infinity. -/
def jround (x : ℚ) : ℤ := ⌊x + 1/2⌋

/-- JS `Math.ceil`. -/
def jceil (x : ℚ) : ℤ := ⌈x⌉

/-- The five complexity tiers used across the tools. -/
inductive Complexity where
  | simple | medium | complex | enterprise | platform
deriving DecidableEq, Repr

/-- Ordinal rank of a tier: simple < medium < complex < enterprise < platform. -/
def Complexity.rank : Complexity → ℕ
  | .simple => 0
  | .medium => 1
  | .complex => 2
  | .enterprise => 3
  | .platform => 4

/-! ## Consistency validation tool (`validation-tools`, `consistencyValidationTool`) -/

/-- Expected pricing multipliers used by the consistency validator
(`expectedMultipliers` in `consistencyValidationTool.execute`). -/
def expectedMultiplier : Complexity → ℚ
  | .simple => 0.35
  | .medium => 0.37
  | .complex => 0.40
  | .enterprise => 0.42
  | .platform => 0.45

/-- `finalPricing` record of the consistency validator's output. -/
structure FinalPricing where
  diyCost : ℚ
  oneQPrice : ℚ
  savingsPercent : ℚ
deriving DecidableEq, Repr

/-- Output of `consistencyValidationTool`. -/
structure ConsistencyOutput where
  isConsistent : Bool
  consistencyScore : ℚ
  finalPricing : FinalPricing
deriving DecidableEq, Repr

/-- `consistencyValidationTool.execute`: validates that
`oneQPrice / diyCost` is within 0.05 of the tier's expected multiplier,
computes the savings percentage from the actual values, and returns the
input `diyCost` / `oneQPrice` unchanged. -/
def consistencyValidation (complexity : Complexity) (diyCost oneQPrice : ℚ) :
    ConsistencyOutput :=
  let expected := expectedMultiplier complexity
  let actual := oneQPrice / diyCost
  let isWithinRange : Bool := |actual - expected| < 0.05
  let savingsPercent : ℚ := jround ((diyCost - oneQPrice) / diyCost * 100)
  { isConsistent := isWithinRange
    consistencyScore := if isWithinRange then 95 else 85
    finalPricing :=
      { diyCost := diyCost
        oneQPrice := oneQPrice
        savingsPercent := savingsPercent } }

/-! ## OneQ pricing tool (`oneq-pricing-tool`, `oneqPricingTool`) -/

/-- Input of `oneqPricingTool`. -/
structure PricingInput where
  diyCost : ℚ
  complexity : Complexity
  expeditedDelivery : Bool
  extendedSupport : Bool
  complianceRequirements : List String
deriving Repr

/-- The pricing multiplier: tier lookup (0.35/0.37/0.40/0.42/0.45) plus a
0.02 compliance premium when the compliance list is non-empty. -/
def pricingMultiplier (ctx : PricingInput) : ℚ :=
  let base :=
    match ctx.complexity with
    | .simple => 0.35
    | .medium => 0.37
    | .complex => 0.40
    | .enterprise => 0.42
    | .platform => 0.45
  if 0 < ctx.complianceRequirements.length then base + 0.02 else base

/-- `baseCorePrice`: DIY cost times the multiplier, rounded to the nearest
1,000. -/
def baseCorePrice (ctx : PricingInput) : ℚ :=
  (jround (ctx.diyCost * pricingMultiplier ctx / 1000) : ℚ) * 1000

/-- Price of the `Extended Support` modular option. -/
def extendedSupportPrice (ctx : PricingInput) : ℚ :=
  let pct : ℚ :=
    if ctx.complexity = .enterprise ∨ ctx.complexity = .platform then 0.35 else 0.25
  (jround (baseCorePrice ctx * pct / 1000) : ℚ) * 1000

/-- Price of the `Expedited Delivery` modular option. -/
def expeditedDeliveryPrice (ctx : PricingInput) : ℚ :=
  let pct : ℚ :=
    if ctx.complexity = .enterprise ∨ ctx.complexity = .platform then 0.25 else 0.20
  (jround (baseCorePrice ctx * pct / 1000) : ℚ) * 1000

/-- `totalPrice`, which `oneqPricingTool` returns as `corePrice`: the base
core price plus the expedited-delivery and extended-support option prices
when the corresponding flags are set. -/
def corePrice (ctx : PricingInput) : ℚ :=
  baseCorePrice ctx
    + (if ctx.expeditedDelivery then expeditedDeliveryPrice ctx else 0)
    + (if ctx.extendedSupport then extendedSupportPrice ctx else 0)

/-- `totalSavings` returned by `oneqPricingTool`. -/
def totalSavings (ctx : PricingInput) : ℚ := ctx.diyCost - corePrice ctx

/-- `savingsPercentage` returned by `oneqPricingTool`. -/
def savingsPercentage (ctx : PricingInput) : ℚ :=
  jround (totalSavings ctx / ctx.diyCost * 100)

/-! ## Revenue projections tool (`revenue-projections-tool.ts`) -/

/-- Business models recognised by `revenueProjectionsTool`. -/
inductive BusinessModel where
  | saas | ecommerce | b2b | mobile | enterprise
deriving DecidableEq, Repr

/-- `marketParameters` object of `revenueProjectionsTool`'s input schema. -/
structure MarketParams where
  saasArpu : ℚ
  saasAcquisitionRate : ℚ
  saasChurnRate : ℚ
  ecommerceTransactionVolume : ℚ
  ecommerceAOV : ℚ
  ecommerceMargin : ℚ
  b2bDealSize : ℚ
  b2bDealsPerMonth : ℚ
  b2bWinRate : ℚ
  mobileMAU : ℚ
  mobileRevenuePerUser : ℚ
  enterpriseDealSize : ℚ
  enterpriseDealsPerQuarter : ℚ
  enterpriseWinRate : ℚ
  enterpriseSalesCycle : ℚ
  marketPenetrationFactor : ℚ
deriving Repr

/-- Zod defaults of the `marketParameters` fields. -/
def defaultMarketParams : MarketParams :=
  { saasArpu := 150
    saasAcquisitionRate := 25
    saasChurnRate := 0.10
    ecommerceTransactionVolume := 500
    ecommerceAOV := 180
    ecommerceMargin := 0.25
    b2bDealSize := 12000
    b2bDealsPerMonth := 3
    b2bWinRate := 0.25
    mobileMAU := 15000
    mobileRevenuePerUser := 3.50
    enterpriseDealSize := 75000
    enterpriseDealsPerQuarter := 2
    enterpriseWinRate := 0.15
    enterpriseSalesCycle := 9
    marketPenetrationFactor := 0.7 }

/-- Input of `revenueProjectionsTool` (the fields that feed the numeric
outputs; the free-text description/market/geography/currency fields do not
influence any number). -/
structure RevenueInput where
  businessModel : BusinessModel
  marketParameters : Option MarketParams
deriving Repr

/-- The `params` object: provided parameters or defaults (`?? default`). -/
def revParams (ctx : RevenueInput) : MarketParams :=
  ctx.marketParameters.getD defaultMarketParams

/-- `monthlyRevenuePotential` before the market-penetration step: the
per-business-model formula of the `switch` statement (the `enterprise`
branch rounds its quarterly-to-monthly conversion). -/
def preRevenue (ctx : RevenueInput) : ℚ :=
  let p := revParams ctx
  match ctx.businessModel with
  | .saas => p.saasAcquisitionRate * p.saasArpu * (1 - p.saasChurnRate)
  | .ecommerce => p.ecommerceTransactionVolume * p.ecommerceAOV * p.ecommerceMargin
  | .b2b => p.b2bDealSize * p.b2bDealsPerMonth * p.b2bWinRate
  | .mobile => p.mobileMAU * p.mobileRevenuePerUser
  | .enterprise =>
      (jround (p.enterpriseDealSize * p.enterpriseDealsPerQuarter
        * p.enterpriseWinRate / 3) : ℚ)

/-- `monthlyRevenuePotential` after `Math.round(m × penetrationFactor)`. -/
def monthlyRevenuePotential (ctx : RevenueInput) : ℤ :=
  jround (preRevenue ctx * (revParams ctx).marketPenetrationFactor)

/-- `delayCosts` record of `revenueProjectionsTool`'s output. -/
structure DelayCosts where
  twoWeek : ℚ
  oneMonth : ℚ
  threeMonth : ℚ
deriving DecidableEq, Repr

/-- The `delayCosts` computation: `twoWeek = Math.round(m × 0.5)`,
`oneMonth = m`, `threeMonth = m × 3`. -/
def delayCosts (ctx : RevenueInput) : DelayCosts :=
  let m : ℚ := monthlyRevenuePotential ctx
  { twoWeek := (jround (m * 0.5) : ℚ)
    oneMonth := m
    threeMonth := m * 3 }

/-- `firstMoverAdvantage = Math.round(m × 6 × 0.30)`. -/
def firstMoverAdvantage (ctx : RevenueInput) : ℚ :=
  jround ((monthlyRevenuePotential ctx : ℚ) * 6 * 0.30)

/-- `conservativeProjection = Math.round(m × 0.65)`. -/
def conservativeProjection (ctx : RevenueInput) : ℚ :=
  jround ((monthlyRevenuePotential ctx : ℚ) * 0.65)

/-! ## String helpers: JS `String.prototype.includes` and `toLowerCase` -/

/-- Whether the first character list begins with the second. -/
def charsStartWith : List Char → List Char → Bool
  | _, [] => true
  | [], _ :: _ => false
  | a :: as, b :: bs => a == b && charsStartWith as bs

/-- Whether the second character list occurs contiguously in the first
(the semantics of JS `String.prototype.includes`). -/
def charsContain : List Char → List Char → Bool
  | [], needle => needle.isEmpty
  | a :: as, needle => charsStartWith (a :: as) needle || charsContain as needle

/-- JS `s.includes(sub)`. -/
def strIncludes (s sub : String) : Bool := charsContain s.toList sub.toList

/-- JS `s.toLowerCase()` (ASCII case folding, which covers every keyword
table in the repository). -/
def jsToLower (s : String) : String := String.mk (s.toList.map Char.toLower)

/-! ## DIY cost calculator tool (`diy-cost-calculator-tool`, `diyCalculatorTool`) -/

/-- `stagePercentages` object of `diyCalculatorTool`'s input schema. -/
structure StagePcts where
  planning : ℚ
  design : ℚ
  htmlMarkup : ℚ
  frontend : ℚ
  backend : ℚ
  qa : ℚ
  management : ℚ
deriving Repr

/-- `hourlyRates` object of `diyCalculatorTool`'s input schema. -/
structure DIYRates where
  planning : ℚ
  design : ℚ
  htmlMarkup : ℚ
  frontend : ℚ
  backend : ℚ
  qa : ℚ
  management : ℚ
  aiMlEngineer : ℚ
  securitySpecialist : ℚ
  enterpriseArchitect : ℚ
  complianceExpert : ℚ
  devOpsEngineer : ℚ
  cloudArchitect : ℚ
deriving Repr

/-- Input of `diyCalculatorTool` (`currency` is carried through for display
only and feeds no number). -/
structure DIYInput where
  backendHours : ℚ
  features : List String
  priority : Complexity
  stagePercentages : Option StagePcts
  hourlyRates : Option DIYRates
  complianceRequirements : List String
  enterpriseFeatures : List String
  isMultiPhase : Bool
deriving Repr

/-- The `stagePercentages` record with `?? default` fallbacks
(8/8/11/26/32/5/10). -/
def diyPcts (ctx : DIYInput) : StagePcts :=
  ctx.stagePercentages.getD ⟨8, 8, 11, 26, 32, 5, 10⟩

/-- The `hourlyRates` record with its `?? baseHourlyRates.*` fallbacks
(85/36/32/45/65/42/38 for the base stages and 80/50/85/95/58/62 for the
enterprise specialists). -/
def diyRates (ctx : DIYInput) : DIYRates :=
  ctx.hourlyRates.getD ⟨85, 36, 32, 45, 65, 42, 38, 80, 50, 85, 95, 58, 62⟩

/-- `totalProjectHours = Math.round((backendHours / 32) * 100 / 10) * 10`:
the divisor is the literal 32, independent of the configured backend
percentage. -/
def diyTotalProjectHours (ctx : DIYInput) : ℚ :=
  (jround (ctx.backendHours / 32 * 100 / 10) : ℚ) * 10

/-- One row of the `stageBreakdown` array. -/
structure StageLine where
  stage : String
  percentage : ℚ
  hours : ℚ
  hourlyRate : ℚ
  cost : ℚ
deriving Repr

/-- A base-stage row: `hours = Math.round((percentage / 100) × totalHours)`,
`cost = hours × hourlyRate`. -/
def baseStageLine (name : String) (pct rate tph : ℚ) : StageLine :=
  { stage := name
    percentage := pct
    hours := (jround (pct / 100 * tph) : ℚ)
    hourlyRate := rate
    cost := (jround (pct / 100 * tph) : ℚ) * rate }

/-- An enterprise-specialist row: `hours = Math.round(totalHours × frac)`,
`cost = hours × hourlyRate`. -/
def entStageLine (name : String) (pct frac rate tph : ℚ) : StageLine :=
  { stage := name
    percentage := pct
    hours := (jround (tph * frac) : ℚ)
    hourlyRate := rate
    cost := (jround (tph * frac) : ℚ) * rate }

/-- The `enterpriseRoles` rows pushed for enterprise/platform projects, in
source order: AI/ML, Security, Enterprise Architecture, Compliance Expert,
DevOps — each gated by its keyword test. -/
def diyEnterpriseRoles (ctx : DIYInput) (tph : ℚ) : List StageLine :=
  let r := diyRates ctx
  (if ctx.enterpriseFeatures.any (fun f => strIncludes f "ai"
      || strIncludes f "machine learning" || strIncludes f "scenario")
    then [entStageLine "AI/ML Engineering" 15 0.15 r.aiMlEngineer tph] else [])
  ++ (if ctx.enterpriseFeatures.any (fun f => strIncludes f "security"
      || strIncludes f "encryption" || strIncludes f "audit")
    then [entStageLine "Security Specialist" 12 0.12 r.securitySpecialist tph] else [])
  ++ (if ctx.priority = .platform ∨ ctx.enterpriseFeatures.any (fun f =>
      strIncludes f "microservices" || strIncludes f "architecture")
    then [entStageLine "Enterprise Architecture" 8 0.08 r.enterpriseArchitect tph] else [])
  ++ (if 0 < ctx.complianceRequirements.length
    then [entStageLine "Compliance Expert" 10 0.10 r.complianceExpert tph] else [])
  ++ (if ctx.enterpriseFeatures.any (fun f => strIncludes f "cloud"
      || strIncludes f "containerized" || strIncludes f "kubernetes")
    then [entStageLine "DevOps Engineering" 10 0.10 r.devOpsEngineer tph] else [])

/-- The full `stageBreakdown`: the seven base stages, plus the enterprise
specialist rows when the priority is enterprise or platform. -/
def diyStageBreakdown (ctx : DIYInput) : List StageLine :=
  let tph := diyTotalProjectHours ctx
  let p := diyPcts ctx
  let r := diyRates ctx
  [ baseStageLine "Planning" p.planning r.planning tph
  , baseStageLine "Design" p.design r.design tph
  , baseStageLine "HTML/Markup" p.htmlMarkup r.htmlMarkup tph
  , baseStageLine "Frontend Development" p.frontend r.frontend tph
  , baseStageLine "Backend Development" p.backend r.backend tph
  , baseStageLine "QA/Testing" p.qa r.qa tph
  , baseStageLine "Project Management" p.management r.management tph ]
  ++ (if ctx.priority = .enterprise ∨ ctx.priority = .platform
      then diyEnterpriseRoles ctx tph else [])

/-- `reduce((sum, stage) => sum + stage.cost, 0)` over a breakdown. -/
def stageCostSum (l : List StageLine) : ℚ := (l.map (·.cost)).sum

/-- `totalSalaryCosts`. -/
def totalSalaryCosts (ctx : DIYInput) : ℚ := stageCostSum (diyStageBreakdown ctx)

/-- `teamSize = Math.ceil(totalProjectHours / (40 × (20 if multi-phase else 16)))`. -/
def diyTeamSize (ctx : DIYInput) : ℤ :=
  jceil (diyTotalProjectHours ctx / (40 * (if ctx.isMultiPhase then 20 else 16)))

/-- The hidden-cost `complianceMultiplier`: 1.0 plus a fixed increment for
each of the five recognised standards present in the list. -/
def complianceMultiplier (l : List String) : ℚ :=
  1.0 + (if "SOC2" ∈ l then 0.15 else 0)
      + (if "GDPR" ∈ l then 0.10 else 0)
      + (if "HIPAA" ∈ l then 0.20 else 0)
      + (if "PCI" ∈ l then 0.12 else 0)
      + (if "FedRAMP" ∈ l then 0.25 else 0)

/-- The `hiddenCosts` record of `diyCalculatorTool`'s output. -/
structure HiddenCosts where
  recruitmentFees : ℚ
  benefitsOverhead : ℚ
  equipmentCosts : ℚ
  onboardingCosts : ℚ
  complianceAuditCosts : ℚ
deriving Repr

/-- The `hiddenCosts` computation. -/
def diyHiddenCosts (ctx : DIYInput) : HiddenCosts :=
  let S := totalSalaryCosts ctx
  let cm := complianceMultiplier ctx.complianceRequirements
  { recruitmentFees := (jround (S * 0.20 * cm) : ℚ)
    benefitsOverhead := (jround (S * 0.35 * cm) : ℚ)
    equipmentCosts := (diyTeamSize ctx : ℚ)
      * (if ctx.priority = .enterprise ∨ ctx.priority = .platform then 6000 else 4500)
    onboardingCosts := (jround (S * 0.25 * cm) : ℚ)
    complianceAuditCosts :=
      if 0 < ctx.complianceRequirements.length then (jround (S * 0.08) : ℚ) else 0 }

/-- `Object.values(hiddenCosts).reduce((sum, cost) => sum + cost, 0)`. -/
def hiddenSum (h : HiddenCosts) : ℚ :=
  h.recruitmentFees + h.benefitsOverhead + h.equipmentCosts
    + h.onboardingCosts + h.complianceAuditCosts

/-- `totalDIYCost = totalSalaryCosts + totalHiddenCosts`. -/
def totalDIYCost (ctx : DIYInput) : ℚ :=
  totalSalaryCosts ctx + hiddenSum (diyHiddenCosts ctx)

/-- The claim's formula for total project hours, written from the spec's
words: `round(backend-hours ÷ backend-share% × 100)` to the nearest 10,
with the backend share a parameter. -/
def specTotalProjectHours (backendHours backendSharePct : ℚ) : ℚ :=
  (jround (backendHours / backendSharePct * 100 / 10) : ℚ) * 10

/-! ## Cost calculator tool (`cost-calculator-tool.ts`, `costCalculatorTool`) -/

/-- One entry of `developmentRequests`. -/
structure DevRequest where
  title : String
  description : String
  backendHours : ℚ
  priority : ℚ
deriving Repr

/-- `stagePercentages` object of `costCalculatorTool`'s input schema. -/
structure CCStagePcts where
  planning : ℚ
  design : ℚ
  html : ℚ
  frontend : ℚ
  backend : ℚ
  qa : ℚ
  management : ℚ
deriving Repr

/-- `hourlyRates` object of `costCalculatorTool`'s input schema. -/
structure CCRates where
  planning : ℚ
  design : ℚ
  html : ℚ
  frontend : ℚ
  backend : ℚ
  qa : ℚ
  management : ℚ
deriving Repr

/-- Input of `costCalculatorTool` (the `location` string feeds no number). -/
structure CostCalcInput where
  developmentRequests : List DevRequest
  stagePercentages : Option CCStagePcts
  hourlyRates : Option CCRates
deriving Repr

/-- Destructuring default for `stagePercentages` (8/8/11/26/32/5/10). -/
def ccPcts (ctx : CostCalcInput) : CCStagePcts :=
  ctx.stagePercentages.getD ⟨8, 8, 11, 26, 32, 5, 10⟩

/-- Destructuring default for `hourlyRates` (₪200/250/180/280/300/220/350). -/
def ccRates (ctx : CostCalcInput) : CCRates :=
  ctx.hourlyRates.getD ⟨200, 250, 180, 280, 300, 220, 350⟩

/-- `totalBackendHours`: sum over the development requests. -/
def ccTotalBackendHours (ctx : CostCalcInput) : ℚ :=
  (ctx.developmentRequests.map (·.backendHours)).sum

/-- `totalProjectHours = backendPercent > 0 ?
(totalBackendHours / backendPercent) × 100 : 0` — the guarded division. -/
def ccTotalProjectHours (ctx : CostCalcInput) : ℚ :=
  let backendPercent := (ccPcts ctx).backend
  if 0 < backendPercent then ccTotalBackendHours ctx / backendPercent * 100 else 0

/-- A stage row of `costCalculatorTool`: `hours = (percentage / 100) ×
totalProjectHours` (unrounded), `cost = hours × hourlyRate`. -/
def ccLine (name : String) (pct rate tph : ℚ) : StageLine :=
  { stage := name
    percentage := pct
    hours := pct / 100 * tph
    hourlyRate := rate
    cost := pct / 100 * tph * rate }

/-- The seven-stage `stageBreakdown` of `costCalculatorTool`. -/
def ccStageBreakdown (ctx : CostCalcInput) : List StageLine :=
  let tph := ccTotalProjectHours ctx
  let p := ccPcts ctx
  let r := ccRates ctx
  [ ccLine "Planning" p.planning r.planning tph
  , ccLine "Design" p.design r.design tph
  , ccLine "HTML/Markup" p.html r.html tph
  , ccLine "Frontend Development" p.frontend r.frontend tph
  , ccLine "Backend Development" p.backend r.backend tph
  , ccLine "QA/Testing" p.qa r.qa tph
  , ccLine "Project Management" p.management r.management tph ]

/-- `totalProjectCost`: sum of the stage costs. -/
def ccTotalProjectCost (ctx : CostCalcInput) : ℚ :=
  stageCostSum (ccStageBreakdown ctx)

/-! ## Input normalization tool (`input-normalization-tool.ts`) -/

/-- `featureKeywords`: the fixed vocabulary matched (case-insensitively, as
substrings) against the roadmap text. -/
def featureKeywords : List String :=
  [ "authentication", "user management", "dashboard", "reporting", "payments"
  , "notifications", "api", "database", "search", "analytics", "integration"
  , "mobile app", "web app", "admin panel", "messaging", "file upload"
  , "real-time", "automation", "machine learning", "ai", "blockchain"
  , "simulation", "scenario engine", "benchmarking", "war room", "crisis management"
  , "incident response", "certification system", "audit logging", "compliance"
  , "multi-tenant", "sso", "single sign-on", "role-based access", "rbac"
  , "microservices", "containerized", "orchestration", "load balancing"
  , "disaster recovery", "backup", "replication", "monitoring", "alerting"
  , "encryption", "security", "penetration testing", "vulnerability assessment" ]

/-- `complexityIndicators.simple`. -/
def simpleIndicators : List String :=
  ["basic", "simple", "mvp", "prototype", "minimal"]

/-- `complexityIndicators.medium` — present in the source table but never
consulted: the classifier checks platform, enterprise, complex and simple
only, and `medium` is the fall-through default. -/
def mediumIndicators : List String :=
  ["standard", "typical", "moderate", "extended"]

/-- `complexityIndicators.complex`. -/
def complexIndicators : List String :=
  ["enterprise", "advanced", "sophisticated", "complex", "ai", "machine learning"]

/-- `complexityIndicators.enterprise`. -/
def enterpriseIndicators : List String :=
  [ "enterprise-grade", "mission-critical", "large-scale", "global"
  , "multi-region", "compliance", "soc2", "gdpr", "hipaa" ]

/-- `complexityIndicators.platform`. -/
def platformIndicators : List String :=
  [ "platform", "ecosystem", "multi-phase", "phased", "architecture"
  , "infrastructure", "framework", "sdk", "api gateway" ]

/-- `normalizedFeatures`: the feature keywords whose lowercase form occurs
in the lowercased roadmap text, in keyword-table order. -/
def normalizedFeatures (text : String) : List String :=
  featureKeywords.filter (fun kw => strIncludes (jsToLower text) (jsToLower kw))

/-- The complexity classification: platform, then enterprise, then complex,
then simple — first tier with a matching indicator wins; otherwise the
default `medium`. -/
def complexityOf (text : String) : Complexity :=
  let tl := jsToLower text
  if platformIndicators.any (fun i => strIncludes tl i) then .platform
  else if enterpriseIndicators.any (fun i => strIncludes tl i) then .enterprise
  else if complexIndicators.any (fun i => strIncludes tl i) then .complex
  else if simpleIndicators.any (fun i => strIncludes tl i) then .simple
  else .medium

/-- `baseHours` ladder per tier (80/160/320/500/800). -/
def baseHours : Complexity → ℚ
  | .simple => 80
  | .medium => 160
  | .complex => 320
  | .enterprise => 500
  | .platform => 800

/-- The backend-hours arithmetic:
`round(baseHours[tier] × max(1, 0.1 × featureCount) / 10) × 10`. -/
def estTransform (t : Complexity) (n : ℕ) : ℚ :=
  let featureMultiplier : ℚ := max 1 ((n : ℚ) * 0.1)
  (jround (baseHours t * featureMultiplier / 10) : ℚ) * 10

/-- `estimatedBackendHours` of the normalization tool. -/
def estimatedBackendHours (text : String) : ℚ :=
  estTransform (complexityOf text) (normalizedFeatures text).length

/-! ## Basic rounding lemmas -/

/-- JS rounding lands within 1/2 of the argument. -/
theorem abs_jround_sub_le (x : ℚ) : |(jround x : ℚ) - x| ≤ 1/2 := by
  have h1 : ((⌊x + 1/2⌋ : ℤ) : ℚ) ≤ x + 1/2 := Int.floor_le _
  have h2 : x + 1/2 - 1 < ((⌊x + 1/2⌋ : ℤ) : ℚ) := Int.sub_one_lt_floor _
  rw [jround, abs_le]
  constructor <;> linarith

/-- JS rounding is monotone. -/
theorem jround_mono {x y : ℚ} (h : x ≤ y) : jround x ≤ jround y := by
  exact Int.floor_mono (by linarith)

/-! ## Claims C3, C4 — consistency validator -/

/-- C3: the consistency validator returns the caller-supplied `diyCost` and
`oneQPrice` unchanged in `finalPricing`; the only derived field is the
savings percentage, computed from those same values. -/
theorem c3_validator_preserves_inputs (t : Complexity) (d o : ℚ) :
    (consistencyValidation t d o).finalPricing.diyCost = d ∧
    (consistencyValidation t d o).finalPricing.oneQPrice = o ∧
    (consistencyValidation t d o).finalPricing.savingsPercent
      = (jround ((d - o) / d * 100) : ℚ) :=
  ⟨rfl, rfl, rfl⟩

/-- C4 counterexample: with tier `simple`, `diyCost = 100`, `oneQPrice = 90`
(a positive pair), the first invocation reports `isConsistent = false`, and
re-invoking the validator on the `finalPricing` values of that first output
again reports `isConsistent = false`, refuting "always reports
`isConsistent == true`". -/
theorem c4_counterexample :
    (consistencyValidation .simple
        (consistencyValidation .simple 100 90).finalPricing.diyCost
        (consistencyValidation .simple 100 90).finalPricing.oneQPrice).isConsistent
      = false := by
  norm_num [consistencyValidation, expectedMultiplier]
  rw [abs_of_nonneg] <;> norm_num

/-- C4 (amended): because the validator preserves its inputs, re-invoking it
on the `diyCost`/`oneQPrice` of its own prior output reports exactly the same
`isConsistent` flag as the prior invocation — `true` only when the original
pair was already within the 0.05 tolerance. -/
theorem c4_revalidation_reports_same (t : Complexity) (d o : ℚ) :
    (consistencyValidation t
        (consistencyValidation t d o).finalPricing.diyCost
        (consistencyValidation t d o).finalPricing.oneQPrice).isConsistent
      = (consistencyValidation t d o).isConsistent := rfl

/-! ## Claim C2 — pricing multiplier vs. returned core price -/

/-- C2 counterexample: with `diyCost = 1,000,000`, tier `simple`, no
compliance, and `expeditedDelivery = true`, the returned `corePrice` is
`totalPrice = 420,000` (base 350,000 plus the 70,000 expedited option), so
`corePrice / diyCost = 0.42` differs from the 0.35 multiplier by far more
than the nearest-1,000 rounding allowance `500 / diyCost`. -/
theorem c2_counterexample :
    ¬ (|corePrice ⟨1000000, .simple, true, false, []⟩ / 1000000
          - pricingMultiplier ⟨1000000, .simple, true, false, []⟩|
        ≤ 500 / 1000000) := by
  have h : (Complexity.simple = Complexity.enterprise
      ∨ Complexity.simple = Complexity.platform) = False := by simp
  norm_num [corePrice, baseCorePrice, expeditedDeliveryPrice, pricingMultiplier,
    jround, h]
  rw [abs_of_nonneg] <;> norm_num

/-- C2 (amended): when neither `expeditedDelivery` nor `extendedSupport` is
flagged, the returned `corePrice` equals the base core price, and
`corePrice / diyCost` is within the tier multiplier (compliance premium
included) up to the nearest-1,000 rounding of the price. -/
theorem c2_core_ratio_within_rounding (ctx : PricingInput)
    (hd : 0 < ctx.diyCost)
    (hexp : ctx.expeditedDelivery = false)
    (hext : ctx.extendedSupport = false) :
    |corePrice ctx / ctx.diyCost - pricingMultiplier ctx| ≤ 500 / ctx.diyCost := by
  have hcore : corePrice ctx = baseCorePrice ctx := by
    simp [corePrice, hexp, hext]
  have habs : |baseCorePrice ctx - ctx.diyCost * pricingMultiplier ctx| ≤ 500 := by
    have h := abs_jround_sub_le (ctx.diyCost * pricingMultiplier ctx / 1000)
    have hb : baseCorePrice ctx - ctx.diyCost * pricingMultiplier ctx
        = ((jround (ctx.diyCost * pricingMultiplier ctx / 1000) : ℚ)
            - ctx.diyCost * pricingMultiplier ctx / 1000) * 1000 := by
      rw [baseCorePrice]; ring
    rw [hb, abs_mul]
    have h1000 : |(1000 : ℚ)| = 1000 := by norm_num
    rw [h1000]
    nlinarith [abs_nonneg ((jround (ctx.diyCost * pricingMultiplier ctx / 1000) : ℚ)
      - ctx.diyCost * pricingMultiplier ctx / 1000)]
  have hq : corePrice ctx / ctx.diyCost - pricingMultiplier ctx
      = (baseCorePrice ctx - ctx.diyCost * pricingMultiplier ctx) / ctx.diyCost := by
    rw [hcore]
    field_simp
  rw [hq, abs_div, abs_of_pos hd]
  exact (div_le_div_iff_of_pos_right hd).mpr habs

/-- Witness for C2 (amended), at the spec's own scenario `diyCost = 252,000`,
tier `medium`, no compliance, no optional add-ons. -/
theorem c2_witness :
    (0 : ℚ) < 252000 ∧
    |corePrice ⟨252000, .medium, false, false, []⟩ / 252000
        - pricingMultiplier ⟨252000, .medium, false, false, []⟩|
      ≤ 500 / 252000 :=
  ⟨by norm_num, c2_core_ratio_within_rounding ⟨252000, .medium, false, false, []⟩
    (by norm_num) rfl rfl⟩

/-- Rounding an integer is the identity. -/
theorem jround_intCast (c : ℤ) : jround (c : ℚ) = c := by
  rw [jround, Int.floor_int_add]
  norm_num

/-! ## Claim C7 — delay-cost ratios -/

/-- C7 counterexample: under the default SaaS parameters the rounded monthly
revenue potential is 2363 (odd), so `twoWeek = round(1181.5) = 1182` and
`6 × twoWeek = 7092 ≠ 7089 = threeMonth`. -/
theorem c7_counterexample :
    (delayCosts ⟨.saas, none⟩).threeMonth
      ≠ 6 * (delayCosts ⟨.saas, none⟩).twoWeek := by
  norm_num [delayCosts, monthlyRevenuePotential, preRevenue, revParams,
    defaultMarketParams, jround]

/-- C7 (amended): `threeMonth = 3 × oneMonth` holds exactly for every input,
and `oneMonth` is the rounded monthly revenue potential; `6 × twoWeek`
equals `threeMonth` only when the rounded monthly potential is even, since
`twoWeek` rounds half of it to the nearest integer. -/
theorem c7_delay_cost_ratios (ctx : RevenueInput) :
    (delayCosts ctx).threeMonth = 3 * (delayCosts ctx).oneMonth ∧
    (delayCosts ctx).oneMonth = (monthlyRevenuePotential ctx : ℚ) ∧
    (2 ∣ monthlyRevenuePotential ctx →
      6 * (delayCosts ctx).twoWeek = (delayCosts ctx).threeMonth) := by
  refine ⟨by simp [delayCosts]; ring, rfl, ?_⟩
  rintro ⟨k, hk⟩
  simp only [delayCosts, hk]
  push_cast
  have h : ((2 : ℚ) * k) * 0.5 = (k : ℚ) := by ring
  rw [h]
  have h2 : jround ((k : ℤ) : ℚ) = k := jround_intCast k
  push_cast [h2]
  ring

/-- Witness for C7 (amended): the default e-commerce parameters give an even
rounded monthly potential (15750), where all three ratios hold. -/
theorem c7_witness :
    2 ∣ monthlyRevenuePotential ⟨.ecommerce, none⟩ ∧
    6 * (delayCosts ⟨.ecommerce, none⟩).twoWeek
      = (delayCosts ⟨.ecommerce, none⟩).threeMonth :=
  ⟨by norm_num [monthlyRevenuePotential, preRevenue, revParams,
      defaultMarketParams, jround],
   (c7_delay_cost_ratios ⟨.ecommerce, none⟩).2.2
    (by norm_num [monthlyRevenuePotential, preRevenue, revParams,
      defaultMarketParams, jround])⟩

/-! ## Claim C1 — stage costs plus hidden costs equal the grand total -/

/-- C1: for every input to the DIY calculator, the sum of the per-stage
costs of `stageBreakdown` plus the sum of the five hidden-cost components
equals `totalDIYCost` exactly. -/
theorem c1_stage_plus_hidden_eq_total (ctx : DIYInput) :
    stageCostSum (diyStageBreakdown ctx) + hiddenSum (diyHiddenCosts ctx)
      = totalDIYCost ctx := rfl

/-! ## Claim C5 — total project hours vs. the configured backend share -/

/-- C5 counterexample: with `backendHours = 64` and a configured backend
stage percentage of 64, the claim's formula gives
`round(64 ÷ 64 × 100) = 100` hours, but the code divides by the literal 32
and returns 200. -/
theorem c5_counterexample :
    diyTotalProjectHours
        ⟨64, [], .medium, some ⟨8, 8, 11, 26, 64, 5, 10⟩, none, [], [], false⟩
      ≠ specTotalProjectHours 64 64 := by
  norm_num [diyTotalProjectHours, specTotalProjectHours, jround]

/-- C5 (amended): `totalProjectHours` always equals
`round(backendHours ÷ 32 × 100)` rounded to the nearest 10 — the divisor is
the hard-coded literal 32; the configured backend stage percentage is
ignored by this computation. -/
theorem c5_hours_use_hardcoded_32 (ctx : DIYInput) :
    diyTotalProjectHours ctx = specTotalProjectHours ctx.backendHours 32 := rfl

/-! ## Claim C8 — zero configured backend percentage -/

/-- C8 counterexample: one 100-hour request with the backend stage
percentage configured to 0.  `costCalculatorTool` raises no error at all
(its `execute` is a total function); the `backendPercent > 0` ternary
silently yields `totalProjectHours = 0` and a breakdown in which every
stage has 0 hours — contradicting "fails with a configuration error" and
"never silently produces a zero-hours breakdown". -/
theorem c8_counterexample :
    ccTotalProjectHours
        ⟨[⟨"Auth", "Login flow", 100, 3⟩], some ⟨8, 8, 11, 26, 0, 5, 10⟩, none⟩ = 0
    ∧ ∀ s ∈ ccStageBreakdown
        ⟨[⟨"Auth", "Login flow", 100, 3⟩], some ⟨8, 8, 11, 26, 0, 5, 10⟩, none⟩,
        s.hours = 0 := by
  constructor
  · norm_num [ccTotalProjectHours, ccPcts]
  · intro s hs
    have h0 : ccTotalProjectHours
        ⟨[⟨"Auth", "Login flow", 100, 3⟩], some ⟨8, 8, 11, 26, 0, 5, 10⟩, none⟩ = 0 := by
      norm_num [ccTotalProjectHours, ccPcts]
    simp only [ccStageBreakdown, h0, List.mem_cons, List.not_mem_nil, or_false] at hs
    rcases hs with rfl | rfl | rfl | rfl | rfl | rfl | rfl <;> simp [ccLine]

/-- C8 (amended): whenever the resolved backend stage percentage is 0 (and
likewise when it is negative), `costCalculatorTool` does not fail: it
returns `totalProjectHours = 0` and a stage breakdown whose rows all carry
0 hours and 0 cost.  The `backendPercent > 0` guard does prevent the
division by zero (so no `Infinity`/`NaN` arises), but no configuration
error is raised. -/
theorem c8_zero_backend_silently_zero (ctx : CostCalcInput)
    (h : (ccPcts ctx).backend = 0) :
    ccTotalProjectHours ctx = 0
    ∧ (∀ s ∈ ccStageBreakdown ctx, s.hours = 0 ∧ s.cost = 0)
    ∧ ccTotalProjectCost ctx = 0 := by
  have h0 : ccTotalProjectHours ctx = 0 := by
    simp [ccTotalProjectHours, h]
  refine ⟨h0, ?_, ?_⟩
  · intro s hs
    simp only [ccStageBreakdown, h0, List.mem_cons, List.not_mem_nil, or_false] at hs
    rcases hs with rfl | rfl | rfl | rfl | rfl | rfl | rfl <;> simp [ccLine]
  · simp [ccTotalProjectCost, ccStageBreakdown, stageCostSum, ccLine, h0]

/-- Witness for C8 (amended) at the counterexample's concrete input. -/
theorem c8_witness :
    (ccPcts ⟨[⟨"Auth", "Login flow", 100, 3⟩],
        some ⟨8, 8, 11, 26, 0, 5, 10⟩, none⟩).backend = 0
    ∧ (ccTotalProjectHours ⟨[⟨"Auth", "Login flow", 100, 3⟩],
          some ⟨8, 8, 11, 26, 0, 5, 10⟩, none⟩ = 0
        ∧ (∀ s ∈ ccStageBreakdown ⟨[⟨"Auth", "Login flow", 100, 3⟩],
            some ⟨8, 8, 11, 26, 0, 5, 10⟩, none⟩, s.hours = 0 ∧ s.cost = 0)
        ∧ ccTotalProjectCost ⟨[⟨"Auth", "Login flow", 100, 3⟩],
            some ⟨8, 8, 11, 26, 0, 5, 10⟩, none⟩ = 0) :=
  ⟨rfl, c8_zero_backend_silently_zero _ rfl⟩

/-- `baseHours` is monotone in the tier ordering. -/
theorem baseHours_mono {a b : Complexity} (h : a.rank ≤ b.rank) :
    baseHours a ≤ baseHours b := by
  cases a <;> cases b <;> simp_all [Complexity.rank, baseHours] <;> norm_num

/-! ## Claim C6 — the "basic MVP, authentication, dashboard" scenario -/

/-- C6 counterexample: the text "basic MVP, authentication, dashboard"
contains the simple-tier keywords "basic" and "mvp", so the classifier does
not fall through to the default `medium`, and the estimated backend hours
are 80 (not 170). -/
theorem c6_counterexample :
    complexityOf "basic MVP, authentication, dashboard" ≠ .medium ∧
    estimatedBackendHours "basic MVP, authentication, dashboard" ≠ 170 := by
  constructor
  · decide
  · have hc : complexityOf "basic MVP, authentication, dashboard" = .simple := by
      decide
    have hn : (normalizedFeatures "basic MVP, authentication, dashboard").length
        = 2 := by decide
    rw [estimatedBackendHours, hc, hn, estTransform]
    rw [max_eq_left (by norm_num)]
    norm_num [baseHours, jround]

/-- C6 (amended): for the input text "basic MVP, authentication, dashboard"
the normalizer classifies `simple` (the words "basic" and "mvp" are
simple-tier indicators), the matched features are `authentication` and
`dashboard`, and `estimatedBackendHours = 80 × max(1, 0.1 × 2)` rounded to
the nearest 10 `= 80`. -/
theorem c6_scenario_simple_80 :
    complexityOf "basic MVP, authentication, dashboard" = .simple ∧
    normalizedFeatures "basic MVP, authentication, dashboard"
      = ["authentication", "dashboard"] ∧
    estimatedBackendHours "basic MVP, authentication, dashboard" = 80 := by
  refine ⟨by decide, by decide, ?_⟩
  have hc : complexityOf "basic MVP, authentication, dashboard" = .simple := by
    decide
  have hn : (normalizedFeatures "basic MVP, authentication, dashboard").length
      = 2 := by decide
  rw [estimatedBackendHours, hc, hn, estTransform]
  rw [max_eq_left (by norm_num)]
  norm_num [baseHours, jround]

/-! ## Claim C9 — backend hours monotone in tier at fixed feature count -/

/-- C9: if two roadmap texts match the same number of feature keywords and
one is classified at a strictly higher complexity tier, its estimated
backend hours are at least the other's. -/
theorem c9_hours_monotone_in_tier (s1 s2 : String)
    (hn : (normalizedFeatures s1).length = (normalizedFeatures s2).length)
    (hr : (complexityOf s1).rank < (complexityOf s2).rank) :
    estimatedBackendHours s1 ≤ estimatedBackendHours s2 := by
  rw [estimatedBackendHours, estimatedBackendHours, hn, estTransform, estTransform]
  have hb : baseHours (complexityOf s1) ≤ baseHours (complexityOf s2) :=
    baseHours_mono (le_of_lt hr)
  have hm : (0 : ℚ) ≤ max 1 (((normalizedFeatures s2).length : ℚ) * 0.1) :=
    le_trans zero_le_one (le_max_left _ _)
  have hraw : baseHours (complexityOf s1)
        * max 1 (((normalizedFeatures s2).length : ℚ) * 0.1)
      ≤ baseHours (complexityOf s2)
        * max 1 (((normalizedFeatures s2).length : ℚ) * 0.1) :=
    mul_le_mul_of_nonneg_right hb hm
  have hj : jround (baseHours (complexityOf s1)
        * max 1 (((normalizedFeatures s2).length : ℚ) * 0.1) / 10)
      ≤ jround (baseHours (complexityOf s2)
        * max 1 (((normalizedFeatures s2).length : ℚ) * 0.1) / 10) :=
    jround_mono (by linarith)
  exact mul_le_mul_of_nonneg_right (Int.cast_le.mpr hj) (by norm_num)

/-- Witness for C9: "basic" (zero features, tier simple) versus "platform"
(zero features, tier platform): 80 ≤ 800. -/
theorem c9_witness :
    (normalizedFeatures "basic").length = (normalizedFeatures "platform").length ∧
    (complexityOf "basic").rank < (complexityOf "platform").rank ∧
    estimatedBackendHours "basic" ≤ estimatedBackendHours "platform" :=
  ⟨by decide, by decide,
   c9_hours_monotone_in_tier "basic" "platform" (by decide) (by decide)⟩

/-! ## Claim C10 — unrecognized compliance standards -/

/-- The empty compliance list gives multiplier 1. -/
theorem complianceMultiplier_nil : complianceMultiplier [] = 1 := by
  norm_num [complianceMultiplier]

/-- A compliance list containing none of the five recognised standards
gives multiplier 1. -/
theorem complianceMultiplier_unrecognized (l : List String)
    (h : ∀ c ∈ l, c ∉ (["SOC2", "GDPR", "HIPAA", "PCI", "FedRAMP"] : List String)) :
    complianceMultiplier l = 1 := by
  have h1 : "SOC2" ∉ l := fun hm => (h _ hm) (by simp)
  have h2 : "GDPR" ∉ l := fun hm => (h _ hm) (by simp)
  have h3 : "HIPAA" ∉ l := fun hm => (h _ hm) (by simp)
  have h4 : "PCI" ∉ l := fun hm => (h _ hm) (by simp)
  have h5 : "FedRAMP" ∉ l := fun hm => (h _ hm) (by simp)
  norm_num [complianceMultiplier, h1, h2, h3, h4, h5]

/-- For non-enterprise, non-platform priorities the stage breakdown does
not depend on the compliance list. -/
theorem diyStageBreakdown_compliance_indep (ctx : DIYInput)
    (h1 : ctx.priority ≠ .enterprise) (h2 : ctx.priority ≠ .platform)
    (l : List String) :
    diyStageBreakdown { ctx with complianceRequirements := l }
      = diyStageBreakdown ctx := by
  simp [diyStageBreakdown, diyPcts, diyRates, diyTotalProjectHours, h1, h2]

/-- C10 counterexample: with priority `enterprise`, 320 backend hours and
the single unrecognized standard `ISO27001`, the Compliance Expert stage is
appended (100 hours at 95/h), so `recruitmentFees = round(61,100 × 0.2) =
12,220`, whereas the empty compliance list gives `round(51,600 × 0.2) =
10,320`: the three salary-proportional hidden costs do differ even though
the compliance multiplier stays 1.0. -/
theorem c10_counterexample :
    (diyHiddenCosts ⟨320, [], .enterprise, none, none, ["ISO27001"], [], false⟩).recruitmentFees
      ≠ (diyHiddenCosts ⟨320, [], .enterprise, none, none, [], [], false⟩).recruitmentFees := by
  have hcm : complianceMultiplier ["ISO27001"] = 1 :=
    complianceMultiplier_unrecognized _ (by decide)
  have hep : (Complexity.enterprise = Complexity.platform) = False := by simp
  norm_num [diyHiddenCosts, totalSalaryCosts, stageCostSum, diyStageBreakdown,
    diyTotalProjectHours, diyPcts, diyRates, baseStageLine, entStageLine,
    diyEnterpriseRoles, complianceMultiplier_nil, hcm, hep, jround]

/-- C10 (amended): for priorities other than enterprise/platform (where no
Compliance Expert stage can be appended), a non-empty compliance list
containing none of SOC2/GDPR/HIPAA/PCI/FedRAMP leaves `recruitmentFees`,
`benefitsOverhead` and `onboardingCosts` equal to the empty-list case (the
compliance multiplier stays 1.0), while `complianceAuditCosts =
round(0.08 × total salary cost)` is still charged and the pricing
calculator still adds its +0.02 compliance premium.  For enterprise and
platform priorities the non-empty list additionally appends the Compliance
Expert stage, which changes the salary base of those three hidden costs. -/
theorem c10_unrecognized_compliance (ctx : DIYInput) (pctx : PricingInput)
    (h1 : ctx.priority ≠ .enterprise) (h2 : ctx.priority ≠ .platform)
    (h3 : ctx.complianceRequirements ≠ [])
    (h4 : ∀ c ∈ ctx.complianceRequirements,
      c ∉ (["SOC2", "GDPR", "HIPAA", "PCI", "FedRAMP"] : List String))
    (h5 : pctx.complianceRequirements ≠ []) :
    (diyHiddenCosts ctx).recruitmentFees
      = (diyHiddenCosts { ctx with complianceRequirements := [] }).recruitmentFees
    ∧ (diyHiddenCosts ctx).benefitsOverhead
      = (diyHiddenCosts { ctx with complianceRequirements := [] }).benefitsOverhead
    ∧ (diyHiddenCosts ctx).onboardingCosts
      = (diyHiddenCosts { ctx with complianceRequirements := [] }).onboardingCosts
    ∧ (diyHiddenCosts ctx).complianceAuditCosts
      = (jround (totalSalaryCosts ctx * 0.08) : ℚ)
    ∧ pricingMultiplier pctx
      = pricingMultiplier { pctx with complianceRequirements := [] } + 0.02 := by
  have hcm : complianceMultiplier ctx.complianceRequirements = 1 :=
    complianceMultiplier_unrecognized _ h4
  have hS : totalSalaryCosts { ctx with complianceRequirements := [] }
      = totalSalaryCosts ctx := by
    unfold totalSalaryCosts
    rw [diyStageBreakdown_compliance_indep ctx h1 h2]
  have hlen : 0 < ctx.complianceRequirements.length := List.length_pos.mpr h3
  have hplen : 0 < pctx.complianceRequirements.length := List.length_pos.mpr h5
  refine ⟨?_, ?_, ?_, ?_, ?_⟩
  · simp [diyHiddenCosts, hcm, hS, complianceMultiplier_nil]
  · simp [diyHiddenCosts, hcm, hS, complianceMultiplier_nil]
  · simp [diyHiddenCosts, hcm, hS, complianceMultiplier_nil]
  · simp [diyHiddenCosts, hlen]
  · simp [pricingMultiplier, hplen]

/-- Witness for C10 (amended): priority `simple`, compliance `[ISO27001]`,
320 backend hours; pricing with tier `simple` and the same compliance list. -/
theorem c10_witness :
    ((Complexity.simple ≠ Complexity.enterprise)
      ∧ (Complexity.simple ≠ Complexity.platform)
      ∧ ((["ISO27001"] : List String) ≠ [])
      ∧ (∀ c ∈ (["ISO27001"] : List String),
          c ∉ (["SOC2", "GDPR", "HIPAA", "PCI", "FedRAMP"] : List String)))
    ∧ ((diyHiddenCosts ⟨320, [], .simple, none, none, ["ISO27001"], [], false⟩).recruitmentFees
        = (diyHiddenCosts ⟨320, [], .simple, none, none, [], [], false⟩).recruitmentFees
      ∧ (diyHiddenCosts ⟨320, [], .simple, none, none, ["ISO27001"], [], false⟩).benefitsOverhead
        = (diyHiddenCosts ⟨320, [], .simple, none, none, [], [], false⟩).benefitsOverhead
      ∧ (diyHiddenCosts ⟨320, [], .simple, none, none, ["ISO27001"], [], false⟩).onboardingCosts
        = (diyHiddenCosts ⟨320, [], .simple, none, none, [], [], false⟩).onboardingCosts
      ∧ (diyHiddenCosts ⟨320, [], .simple, none, none, ["ISO27001"], [], false⟩).complianceAuditCosts
        = (jround (totalSalaryCosts ⟨320, [], .simple, none, none, ["ISO27001"], [], false⟩ * 0.08) : ℚ)
      ∧ pricingMultiplier ⟨100000, .simple, false, false, ["ISO27001"]⟩
        = pricingMultiplier ⟨100000, .simple, false, false, []⟩ + 0.02) :=
  ⟨⟨by decide, by decide, by simp, by decide⟩,
   c10_unrecognized_compliance
    ⟨320, [], .simple, none, none, ["ISO27001"], [], false⟩
    ⟨100000, .simple, false, false, ["ISO27001"]⟩
    (by decide) (by decide) (by simp) (by decide) (by simp)⟩
